import Mathlib

/-!
Verification development for the Offensive-Comment-Detector repository.

The two Python scripts (offensive_comment_detector.py and data_generation.py)
are shallowly embedded below.  Python dictionaries carrying comment records
always hold at most the seven keys comment_id, username, comment_text,
is_offensive, offense_type, explanation, severity in this code base, so a
record is embedded as a structure of seven Option-valued fields, where none
stands for "key absent or value None" and dict.get k d is Option.getD d;
this collapse is safe for truthiness tests and None-defaulted gets, and the
two places where the program distinguishes a present null from an absent
key are modelled explicitly: the generation pipeline's key-presence guards
use a two-layer Option (RawGen), and the severity sort key of the reporter
is paired with an explicit model of the TypeError that Python's sorted
raises on a present-null severity (severitySortRaises).
External effects (the file system, the csv / json libraries, the OpenAI call,
the better_profanity word list, Faker) are passed in as explicit parameters:
the file system as a function from paths to a file model, the API call as an
inductive of its three observable outcomes, the profanity test as a Boolean
predicate on strings.  Printing is modelled by returning the list of printed
messages, and "does not raise" by the functions being total Lean functions
whose internal exception flow is an explicit Except that is always handled.
-/

/-- One comment record of the analysis pipeline: a Python dict restricted to
the seven keys this program ever reads or writes.  A field holding none
models the key being absent or bound to None. -/
structure Comment where
  comment_id : Option String
  username : Option String
  comment_text : Option String
  is_offensive : Option Bool
  offense_type : Option String
  explanation : Option String
  severity : Option Int
deriving DecidableEq, Repr

/-- The comment record with every key absent. -/
def emptyComment : Comment :=
  { comment_id := none, username := none, comment_text := none,
    is_offensive := none, offense_type := none, explanation := none,
    severity := none }

/-- Result of json.load on a .json input file, as load_comments inspects it:
a JSON array of records, an object with a comments key, or anything else. -/
inductive ParsedJson where
  | arr (l : List Comment)
  | objComments (l : List Comment)
  | other
deriving DecidableEq

/-- What the file system offers at one path: whether the file exists, the
records csv.DictReader yields for it, and the result of json.load on it
(none models a json.JSONDecodeError). -/
structure FileModel where
  present : Bool
  csvRecords : List Comment
  jsonParse : Option ParsedJson

/-- The exceptions load_comments can see: FileNotFoundError from open,
json.JSONDecodeError, and the two ValueError raises of the function body. -/
inductive LoadErr where
  | fileNotFound
  | jsonDecode
  | valueErr (msg : String)

/-- Python str.endswith: the suffix test on the character sequences. -/
def pyEndsWith (s suff : String) : Bool := suff.data.isSuffixOf s.data

/-- The try-block of load_comments (offensive_comment_detector.py lines
27-43): dispatch on the file extension, open the file, parse it, raising
ValueError for an unexpected JSON shape or an unsupported extension. -/
def loadBody (fs : String → FileModel) (path : String) :
    Except LoadErr (List Comment) :=
  if pyEndsWith path ".csv" then
    if (fs path).present then Except.ok (fs path).csvRecords
    else Except.error LoadErr.fileNotFound
  else if pyEndsWith path ".json" then
    if (fs path).present then
      match (fs path).jsonParse with
      | none => Except.error LoadErr.jsonDecode
      | some (ParsedJson.arr l) => Except.ok l
      | some (ParsedJson.objComments l) => Except.ok l
      | some ParsedJson.other =>
          Except.error (LoadErr.valueErr
            "JSON file should contain a list of comments or a dictionary with a 'comments' key.")
    else Except.error LoadErr.fileNotFound
  else
    Except.error (LoadErr.valueErr "Unsupported file format. Please use CSV or JSON.")

/-- load_comments (lines 24-50): run the body, catch FileNotFoundError and
every other exception, print an error message and return the empty list in
those cases.  The second component is the list of printed messages. -/
def load_comments (fs : String → FileModel) (path : String) :
    List Comment × List String :=
  match loadBody fs path with
  | Except.ok l => (l, [])
  | Except.error LoadErr.fileNotFound =>
      ([], ["Error: File not found at " ++ path])
  | Except.error LoadErr.jsonDecode =>
      ([], ["Error loading file: json decode error"])
  | Except.error (LoadErr.valueErr msg) =>
      ([], ["Error loading file: " ++ msg])

/-- csv.DictReader applied to the body rows of a file whose header row is
exactly comment_id,username,comment_text: each row becomes a record with
those three keys (a missing cell leaves the key unset). -/
def readStdCsv (body : List (List String)) : List Comment :=
  body.map (fun r =>
    { emptyComment with
        comment_id := r.get? 0, username := r.get? 1, comment_text := r.get? 2 })

/-- A cell of an output CSV row for an Option String field: Python's csv
writer renders None as the empty string. -/
def cellS : Option String → String
  | none => ""
  | some s => s

/-- A cell of an output CSV row for the is_offensive field: str(True) and
str(False) in Python. -/
def cellB : Option Bool → String
  | none => ""
  | some true => "True"
  | some false => "False"

/-- A cell of an output CSV row for the severity field. -/
def cellI : Option Int → String
  | none => ""
  | some n => toString n

/-- The fixed fieldnames of export_report (line 191). -/
def exportFieldnames : List String :=
  ["comment_id", "username", "comment_text", "is_offensive", "offense_type",
   "explanation", "severity"]

/-- The row csv.DictWriter writes for one analyzed comment, in the fixed
column order of exportFieldnames; the loop of lines 196-199 that inserts a
None for each missing key is the identity here because every key of the
record type is already present (as none) in the embedding. -/
def exportRow (c : Comment) : List String :=
  [cellS c.comment_id, cellS c.username, cellS c.comment_text,
   cellB c.is_offensive, cellS c.offense_type, cellS c.explanation,
   cellI c.severity]

/-- The CSV branch of export_report (lines 190-201): header row followed by
one row per analyzed comment. -/
def export_report_csv (analyzed : List Comment) : List (List String) :=
  exportFieldnames :: analyzed.map exportRow

/-- One step of pre_filter_comments (lines 67-76): if the profanity test
(the better_profanity library, passed in as cp) matches the comment text,
set is_offensive, offense_type and explanation eagerly. -/
def preFilterOne (cp : String → Bool) (c : Comment) : Comment :=
  if cp (c.comment_text.getD "") then
    { c with is_offensive := some true, offense_type := some "profanity",
             explanation := some "Flagged by better_profanity" }
  else c

/-- pre_filter_comments (lines 63-78): the loop appends exactly one output
record per input record, so it is a map of preFilterOne. -/
def pre_filter_comments (cp : String → Bool) (l : List Comment) : List Comment :=
  l.map (preFilterOne cp)

/-- The four fields of the JSON object the model is asked to return; a
field the object lacks is none, and get with a default is Option.getD. -/
structure AnalysisJson where
  is_offensive : Option Bool
  offense_type : Option String
  explanation : Option String
  severity : Option Int
deriving DecidableEq

/-- The observable outcome of one client.chat.completions.create call:
choices nonempty with the content parsing as JSON (success some), choices
nonempty with json.loads raising JSONDecodeError (success none), choices
empty (noChoices), or an exception whose text is msg (exn). -/
inductive ApiOutcome where
  | success (parsed : Option AnalysisJson)
  | noChoices
  | exn (msg : String)
deriving DecidableEq

/-- The early-return guard of analyze_comment_with_ai (line 82): the comment
was already flagged by the pre-filter as profanity. -/
def profGuard (c : Comment) : Bool :=
  c.is_offensive.getD false && c.offense_type == some "profanity"

/-- analyze_comment_with_ai (lines 80-139).  The outcome of the single API
call is the parameter out; the Boolean result records whether a
classification request was issued at all (the profanity early return issues
none).  Every exception path of the source is a handled branch here, so the
function is total: no exception propagates to the caller. -/
def analyze_comment_with_ai (out : ApiOutcome) (c : Comment) : Comment × Bool :=
  if profGuard c then
    ({ c with severity := some 1 }, false)
  else
    match out with
    | ApiOutcome.success (some a) =>
        ({ c with is_offensive := some (a.is_offensive.getD false),
                  offense_type := a.offense_type,
                  explanation := a.explanation,
                  severity := a.severity }, true)
    | ApiOutcome.success none =>
        ({ c with is_offensive := some true,
                  offense_type := some "error",
                  explanation := some "Error decoding AI analysis response.",
                  severity := some 3 }, true)
    | ApiOutcome.noChoices =>
        ({ c with is_offensive := some false,
                  offense_type := none,
                  explanation := some "No response from AI model.",
                  severity := none }, true)
    | ApiOutcome.exn msg =>
        ({ c with is_offensive := some true,
                  offense_type := some "api_error",
                  explanation := some ("Error during AI analysis: " ++ msg),
                  severity := some 4 }, true)

/-- Python truthiness of the is_offensive value, as used by the filters
of generate_report_json (line 152) and the breakdown comprehension. -/
def offTruthy (c : Comment) : Bool := c.is_offensive.getD false

/-- The sort key of line 157 in the cases where the sorted call returns:
x.get with default 0 yields the integer severity when the value is an
integer, and 0 when the severity key is absent from the dict.  A key present
with a null value instead yields None in Python, and sorting then raises a
TypeError at the first comparison involving it; generate_report_json guards
that case explicitly (severitySortRaises), and in the only non-raising
situation with a null severity — a single offensive comment, which sorted
returns without comparing anything and whose severity the selection never
reads again — the 0 produced here is unobservable, so on the guarded domain
this key agrees with the source. -/
def sortKey (c : Comment) : Int := c.severity.getD 0

/-- Insert a comment into an already-sorted (descending by sortKey) list,
before the first element of key less than or equal to its own; since the
inserted comment preceded the list elements in the input, this realises the
stability of Python's sorted. -/
def insertDesc (c : Comment) : List Comment → List Comment
  | [] => [c]
  | x :: xs =>
    if sortKey x ≤ sortKey c then c :: x :: xs else x :: insertDesc c xs

/-- A stable sort by severity descending, the embedding of sorted with
reverse=True of line 157; sortDesc_perm, sortDesc_sorted and
sortDesc_stable below prove it has exactly the three properties that
characterise Python's sorted under this key. -/
def sortDesc : List Comment → List Comment
  | [] => []
  | c :: rest => insertDesc c (sortDesc rest)

/-- Lines 152 and 157: the offensive comments, stably sorted by severity in
descending order. -/
def sortedOffensive (l : List Comment) : List Comment :=
  sortDesc (l.filter offTruthy)

/-- Python truthiness of the offense_type value, as used by the breakdown
comprehension of line 182 (None and the empty string are falsy). -/
def typeTruthy (c : Comment) : Bool :=
  match c.offense_type with
  | none => false
  | some s => !(s == "")

/-- The list the Counter of line 182 is built from: the offensive comments
whose offense_type is truthy. -/
def breakdownSource (l : List Comment) : List Comment :=
  (l.filter offTruthy).filter typeTruthy

/-- The offense_type_breakdown Counter of line 182, as the count of each
offense type over breakdownSource. -/
def offense_type_breakdown (l : List Comment) (t : String) : Nat :=
  ((breakdownSource l).map (fun c => c.offense_type)).count (some t)

/-- The first selection loop of generate_report_json (lines 162-171),
exactly as written: while fewer than 5 comments are collected, take a
comment whose offense_type was not seen before; the elif branch that adds a
comment when the accumulator is still empty is kept verbatim; once 5 are
collected the loop breaks. -/
def greedyLoop : List Comment → List Comment → List (Option String) → List Comment
  | [], acc, _ => acc
  | c :: rest, acc, seen =>
    if acc.length < 5 then
      if c.offense_type ∈ seen then
        if acc = [] then greedyLoop rest (acc ++ [c]) seen
        else greedyLoop rest acc seen
      else greedyLoop rest (acc ++ [c]) (c.offense_type :: seen)
    else acc

/-- The backfill loop of lines 174-177: scan the sorted list again and
append every comment not already in the selection while it holds fewer than
5 (membership is Python's in on the list, i.e. record equality). -/
def backfillLoop : List Comment → List Comment → List Comment
  | [], acc => acc
  | c :: rest, acc =>
    if c ∉ acc ∧ acc.length < 5 then backfillLoop rest (acc ++ [c])
    else backfillLoop rest acc

/-- The top-5 selection of generate_report_json (lines 156-177). -/
def top5Varied (l : List Comment) : List Comment :=
  let s := sortedOffensive l
  let g := greedyLoop s [] []
  if g.length < 5 then backfillLoop s g else g

/-- The report object generate_report_json returns (lines 150-185); the
Counter is represented by its count function. -/
structure Report where
  total_comments : Nat
  num_offensive_comments : Nat
  breakdown : String → Nat
  top_5_most_severe_offensive_comments_varied : List Comment

/-- Whether the sorted call of line 157 raises a TypeError on this list of
offensive comments.  Analyzed records always carry the severity key (every
path of analyze_comment_with_ai assigns it), so a severity of none here is
a present null, whose key is None in Python; with two or more elements
every element's key takes part in at least one comparison, and any
comparison involving None raises.  With fewer than two elements sorted
performs no comparison at all and cannot raise. -/
def severitySortRaises (off : List Comment) : Bool :=
  decide (2 ≤ off.length) && off.any (fun c => c.severity == none)

/-- generate_report_json (lines 150-185): a TypeError escaping the sorted
call of line 157 propagates to the caller (error case); otherwise the
report record is built. -/
def generate_report_json (analyzed : List Comment) : Except String Report :=
  if severitySortRaises (analyzed.filter offTruthy) then
    Except.error "TypeError: comparison of None severity"
  else
    Except.ok
      { total_comments := analyzed.length,
        num_offensive_comments := (analyzed.filter offTruthy).length,
        breakdown := offense_type_breakdown analyzed,
        top_5_most_severe_offensive_comments_varied := top5Varied analyzed }

/-- The selection algorithm exactly as the specification words it: greedily
scan the sorted list taking the first comment of each previously-unseen
offense_type until 5 are collected or the list ends.  It differs from
greedyLoop only in lacking the elif branch. -/
def specGreedy : List Comment → List Comment → List (Option String) → List Comment
  | [], acc, _ => acc
  | c :: rest, acc, seen =>
    if acc.length < 5 then
      if c.offense_type ∈ seen then specGreedy rest acc seen
      else specGreedy rest (acc ++ [c]) (c.offense_type :: seen)
    else acc

/-- The specification's whole selection: stable descending sort, greedy
diversity scan, then if fewer than 5 were collected backfill with the next
most-severe comments not already selected, duplicates by type now allowed. -/
def specTop5 (l : List Comment) : List Comment :=
  let s := sortedOffensive l
  let g := specGreedy s [] []
  if g.length < 5 then backfillLoop s g else g

/-- A raw generated comment, as parsed from one response line of the
generation pipeline.  Each field is two-layered because the assembly loop's
guards test key presence, not the value: the outer Option is whether the
key exists in the dict (none = key absent), the inner Option is its value
(none = the value null); a JSON line such as a null username yields
some none, which passes the key-presence checks of both
generate_comments_batch and the assembly loop. -/
structure RawGen where
  username : Option (Option String)
  comment_text : Option (Option String)
deriving DecidableEq

/-- A record of generated_comments.csv.  All three keys are always written
by the assembly loop, so the fields here are the values at those keys:
comment_id is always an assigned integer, while username and comment_text
may be null (rendered as an empty CSV cell by the writer). -/
structure GenRecord where
  comment_id : Option Nat
  username : Option String
  comment_text : Option String
deriving DecidableEq

/-- The final_comments assembly loop of data_generation.py (lines 73-79):
the guards are key-presence tests, so a username or comment_text key that
is absent is filled from Faker (passed in as fake, indexed by loop
position) or with the fixed placeholder, while a key present with a null
value is carried through unchanged; comment_id is assigned index + 1. -/
def assembleFinal (fake : Nat → String) (raws : List RawGen) : List GenRecord :=
  raws.enum.map (fun p =>
    { comment_id := some (p.1 + 1),
      username := p.2.username.getD (some (fake p.1)),
      comment_text := p.2.comment_text.getD (some "This comment had an issue.") })

/-- An offensive comment of a given offense type and severity, used for
concrete test inputs. -/
def mkOff (t : String) (sev : Int) : Comment :=
  { emptyComment with
      is_offensive := some true, offense_type := some t, severity := some sev }

/-- The concrete input of the specification's top-5 example: offense types
A at severity 5, A at severity 4, B at severity 3 and C at severity 1. -/
def exTop5Input : List Comment :=
  [mkOff "A" 5, mkOff "A" 4, mkOff "B" 3, mkOff "C" 1]

/-- A file system on which every path is a missing file. -/
def fsAllMissing : String → FileModel :=
  fun _ => { present := false, csvRecords := [], jsonParse := none }

/-- The file system holding one CSV input file with the standard header and
the given body rows, at every path. -/
def fsOfCsv (body : List (List String)) : String → FileModel :=
  fun _ => { present := true, csvRecords := readStdCsv body, jsonParse := none }

/-- A one-word profanity list: exactly the word damn matches. -/
def cpDamn : String → Bool := fun s => s == "damn"

/-- A comment whose text is the profane word damn. -/
def cDamn : Comment := { emptyComment with comment_text := some "damn" }

/-- An offensive comment with a present offense type, for the breakdown
witness. -/
def cToxic : Comment :=
  { emptyComment with
      is_offensive := some true, offense_type := some "toxicity",
      severity := some 2 }

/-- An offensive comment whose offense_type is null, for the breakdown
witness. -/
def cNullType : Comment :=
  { emptyComment with is_offensive := some true, severity := some 5 }

/-- Two raw generated comments: the first is missing both keys, the second
carries both keys with string values. -/
def rawsEx : List RawGen :=
  [{ username := none, comment_text := none },
   { username := some (some "bob"), comment_text := some (some "hey") }]

/-- A raw generated comment whose username key is present but null, and
whose comment_text key holds a string. -/
def rawNullUser : List RawGen :=
  [{ username := some none, comment_text := some (some "hi") }]

/-- An offensive comment with integer severity 3. -/
def cSev3 : Comment :=
  { emptyComment with
      is_offensive := some true, offense_type := some "toxicity",
      severity := some 3 }

/-- An offensive comment whose severity key holds null. -/
def cNullSev : Comment :=
  { emptyComment with
      is_offensive := some true, offense_type := some "harassment" }

/-- Two offensive comments, one of null severity: the smallest input on
which the sorted call of line 157 raises a TypeError. -/
def nullSevPair : List Comment := [cSev3, cNullSev]

/-- Inserting with insertDesc permutes the cons: nothing is lost or gained. -/
theorem insertDesc_perm (c : Comment) (l : List Comment) :
    (insertDesc c l).Perm (c :: l) := by
  induction l with
  | nil => exact List.Perm.refl _
  | cons x xs ih =>
    unfold insertDesc
    split
    · exact List.Perm.refl _
    · exact (List.Perm.cons x ih).trans (List.Perm.swap c x xs)

/-- sortDesc permutes its input. -/
theorem sortDesc_perm (l : List Comment) : (sortDesc l).Perm l := by
  induction l with
  | nil => exact List.Perm.refl _
  | cons c rest ih =>
    exact (insertDesc_perm c (sortDesc rest)).trans (List.Perm.cons c ih)

/-- insertDesc preserves descending sortedness by sortKey. -/
theorem insertDesc_pairwise (c : Comment) (l : List Comment)
    (h : l.Pairwise (fun a b => sortKey b ≤ sortKey a)) :
    (insertDesc c l).Pairwise (fun a b => sortKey b ≤ sortKey a) := by
  induction l with
  | nil => simp [insertDesc]
  | cons x xs ih =>
    unfold insertDesc
    split
    · rename_i hle
      refine List.Pairwise.cons ?_ h
      intro y hy
      rcases List.mem_cons.mp hy with rfl | hy
      · exact hle
      · exact le_trans (List.rel_of_pairwise_cons h hy) hle
    · rename_i hgt
      refine List.Pairwise.cons ?_ (ih (List.Pairwise.of_cons h))
      intro y hy
      rcases List.mem_cons.mp ((insertDesc_perm c xs).mem_iff.mp hy) with rfl | hy
      · exact le_of_not_le hgt
      · exact List.rel_of_pairwise_cons h hy

/-- sortDesc sorts descending by sortKey. -/
theorem sortDesc_sorted (l : List Comment) :
    (sortDesc l).Pairwise (fun a b => sortKey b ≤ sortKey a) := by
  induction l with
  | nil => exact List.Pairwise.nil
  | cons c rest ih => exact insertDesc_pairwise c _ ih

/-- Filtering insertDesc at the key of the inserted element puts that
element first: it goes before every equal-key element already present. -/
theorem insertDesc_filter_eq (c : Comment) (l : List Comment) (k : Int)
    (hc : sortKey c = k) :
    (insertDesc c l).filter (fun x => decide (sortKey x = k))
      = c :: l.filter (fun x => decide (sortKey x = k)) := by
  induction l with
  | nil => simp [insertDesc, hc]
  | cons x xs ih =>
    unfold insertDesc
    split
    · simp [List.filter_cons, hc]
    · rename_i hgt
      have hxk : ¬ sortKey x = k := by
        intro he
        exact hgt (le_of_eq (he.trans hc.symm))
      simp [List.filter_cons, hxk, ih]

/-- Filtering insertDesc at a key other than the inserted element's is
filtering the original list. -/
theorem insertDesc_filter_ne (c : Comment) (l : List Comment) (k : Int)
    (hc : ¬ sortKey c = k) :
    (insertDesc c l).filter (fun x => decide (sortKey x = k))
      = l.filter (fun x => decide (sortKey x = k)) := by
  induction l with
  | nil => simp [insertDesc, hc]
  | cons x xs ih =>
    unfold insertDesc
    split
    · simp [List.filter_cons, hc]
    · simp [List.filter_cons, ih]

/-- Stability of sortDesc: within each severity key, the sorted list keeps
exactly the input's order of elements (the filter characterisation of a
stable sort). -/
theorem sortDesc_stable (l : List Comment) (k : Int) :
    (sortDesc l).filter (fun x => decide (sortKey x = k))
      = l.filter (fun x => decide (sortKey x = k)) := by
  induction l with
  | nil => rfl
  | cons c rest ih =>
    by_cases hc : sortKey c = k
    · unfold sortDesc
      rw [insertDesc_filter_eq c _ k hc, ih]
      simp [List.filter_cons, hc]
    · unfold sortDesc
      rw [insertDesc_filter_ne c _ k hc, ih]
      simp [List.filter_cons, hc]

/-- The elif branch of the first selection loop can never fire: whenever the
accumulator is empty so is the seen set, hence the membership test already
routes an empty accumulator to the taking branch.  Therefore the loop as
written equals the specification's loop without the elif. -/
theorem greedyLoop_eq_specGreedy (rest : List Comment) (acc : List Comment)
    (seen : List (Option String)) (h : acc = [] → seen = []) :
    greedyLoop rest acc seen = specGreedy rest acc seen := by
  induction rest generalizing acc seen with
  | nil => rfl
  | cons c rest ih =>
    unfold greedyLoop specGreedy
    by_cases h5 : acc.length < 5
    · rw [if_pos h5, if_pos h5]
      by_cases hmem : c.offense_type ∈ seen
      · have hacc : ¬ acc = [] := by
          intro he
          rw [h he] at hmem
          exact List.not_mem_nil _ hmem
        rw [if_pos hmem, if_pos hmem, if_neg hacc]
        exact ih acc seen h
      · rw [if_neg hmem, if_neg hmem]
        exact ih (acc ++ [c]) (c.offense_type :: seen) (by simp)
    · rw [if_neg h5, if_neg h5]

/-- The first three cells of the exported row of a record read from a
three-cell CSV row are that row. -/
theorem exportRow_take3 (r : List String) (h : r.length = 3) :
    (exportRow
      { emptyComment with
          comment_id := r.get? 0, username := r.get? 1,
          comment_text := r.get? 2 }).take 3 = r := by
  rcases r with _ | ⟨a, _ | ⟨b, _ | ⟨c, _ | ⟨d, t⟩⟩⟩⟩ <;> simp at h
  rfl

/-- C1 counterexample: on two offensive comments of which one has a null
severity, generate_report_json raises a TypeError out of the sorted call
(get with default 0 defaults only an absent key, not a present null), so it
does not return a report at all, while the specification's algorithm treats
the null severity as 0 and returns the two comments in sorted order — the
claim that the code selects by the exact algorithm on every input list of
analyzed comments fails here. -/
theorem C1_counterexample :
    generate_report_json nullSevPair
      = Except.error "TypeError: comparison of None severity"
    ∧ specTop5 nullSevPair = [cSev3, cNullSev] := by
  exact ⟨rfl, by decide⟩

/-- C1 amended: on every input list of analyzed comments whose sort does
not raise — fewer than two offensive comments, or no offensive comment
with a null severity — generate_report_json returns a report whose top-5
field equals specTop5, the selection exactly as the specification words it
(stable descending sort, greedy scan of unseen offense types up to 5, then
backfill of not-yet-selected comments up to 5); the shared sort is a
permutation of the offensive comments, descending by severity with an
absent severity key as 0, and stable; and on the concrete example with
types A:5, A:4, B:3, C:1 the report holds one of each of A, B, C before
the duplicate A. -/
theorem C1_top5_exact_algorithm :
    (∀ l : List Comment, severitySortRaises (l.filter offTruthy) = false →
        (generate_report_json l).map
          (fun r => r.top_5_most_severe_offensive_comments_varied)
          = Except.ok (specTop5 l))
    ∧ (∀ l : List Comment, (sortedOffensive l).Perm (l.filter offTruthy))
    ∧ (∀ l : List Comment,
        (sortedOffensive l).Pairwise (fun a b => sortKey b ≤ sortKey a))
    ∧ (∀ (l : List Comment) (k : Int),
        (sortedOffensive l).filter (fun x => decide (sortKey x = k))
          = (l.filter offTruthy).filter (fun x => decide (sortKey x = k)))
    ∧ (generate_report_json exTop5Input).map
        (fun r => (r.top_5_most_severe_offensive_comments_varied).map
          (fun c => c.offense_type))
        = Except.ok [some "A", some "B", some "C", some "A"] := by
  refine ⟨?_, ?_, ?_, ?_, ?_⟩
  · intro l hok
    simp only [generate_report_json, hok, Bool.false_eq_true, if_false,
      Except.map, Except.ok.injEq]
    show top5Varied l = specTop5 l
    simp only [top5Varied, specTop5]
    rw [greedyLoop_eq_specGreedy _ [] [] (fun _ => rfl)]
  · intro l
    exact sortDesc_perm _
  · intro l
    exact sortDesc_sorted _
  · intro l k
    exact sortDesc_stable _ k
  · rfl

/-- Witness for C1_top5_exact_algorithm at the concrete A/A/B/C input,
whose sort raises nothing. -/
theorem C1_top5_exact_algorithm_witness :
    severitySortRaises (exTop5Input.filter offTruthy) = false
    ∧ (generate_report_json exTop5Input).map
        (fun r => r.top_5_most_severe_offensive_comments_varied)
        = Except.ok (specTop5 exTop5Input) :=
  ⟨by decide, C1_top5_exact_algorithm.1 exTop5Input (by decide)⟩

/-- C2 counterexample: on the no-response-choices outcome the code sets
explanation to the fixed message "No response from AI model.", so a comment
returned with is_offensive false whose explanation is not null exists,
refuting the claim that all three fields are null. -/
theorem C2_counterexample :
    (analyze_comment_with_ai ApiOutcome.noChoices emptyComment).1.is_offensive
      = some false
    ∧ ¬ (analyze_comment_with_ai ApiOutcome.noChoices
          emptyComment).1.explanation = none := by
  refine ⟨rfl, ?_⟩
  intro h
  simp [analyze_comment_with_ai, profGuard, emptyComment] at h

/-- C2 amended: whenever the API returns no response choices (for a comment
not already resolved as profanity by the pre-filter), analyze_comment_with_ai
marks the comment not offensive with offense_type and severity null, and
explanation set to the fixed non-null message "No response from AI model.". -/
theorem C2_noChoices_fields (c : Comment) (h : profGuard c = false) :
    (analyze_comment_with_ai ApiOutcome.noChoices c).1.is_offensive = some false
    ∧ (analyze_comment_with_ai ApiOutcome.noChoices c).1.offense_type = none
    ∧ (analyze_comment_with_ai ApiOutcome.noChoices c).1.severity = none
    ∧ (analyze_comment_with_ai ApiOutcome.noChoices c).1.explanation
        = some "No response from AI model." := by
  refine ⟨?_, ?_, ?_, ?_⟩ <;> simp [analyze_comment_with_ai, h]

/-- Witness for C2_noChoices_fields at the empty comment record. -/
theorem C2_noChoices_fields_witness :
    profGuard emptyComment = false
    ∧ ((analyze_comment_with_ai ApiOutcome.noChoices
          emptyComment).1.is_offensive = some false
        ∧ (analyze_comment_with_ai ApiOutcome.noChoices
            emptyComment).1.offense_type = none
        ∧ (analyze_comment_with_ai ApiOutcome.noChoices
            emptyComment).1.severity = none
        ∧ (analyze_comment_with_ai ApiOutcome.noChoices
            emptyComment).1.explanation = some "No response from AI model.") :=
  ⟨rfl, C2_noChoices_fields emptyComment rfl⟩

/-- C3: a comment whose text matches the profanity list is marked by
pre_filter_comments as offensive with offense_type profanity and the fixed
explanation, and the subsequent analyze_comment_with_ai step returns it with
severity 1, all other fields unchanged (so offense_type is not altered) and
with no classification request issued (the Boolean component is false),
whatever the API outcome parameter would have been. -/
theorem C3_profanity_severity_one (cp : String → Bool) (c : Comment)
    (out : ApiOutcome) (h : cp (c.comment_text.getD "") = true) :
    (preFilterOne cp c).is_offensive = some true
    ∧ (preFilterOne cp c).offense_type = some "profanity"
    ∧ (preFilterOne cp c).explanation = some "Flagged by better_profanity"
    ∧ analyze_comment_with_ai out (preFilterOne cp c)
        = ({ preFilterOne cp c with severity := some 1 }, false) := by
  have hc' : preFilterOne cp c
      = { c with is_offensive := some true, offense_type := some "profanity",
                 explanation := some "Flagged by better_profanity" } := by
    simp [preFilterOne, h]
  refine ⟨?_, ?_, ?_, ?_⟩ <;>
    simp [hc', analyze_comment_with_ai, profGuard]

/-- Witness for C3_profanity_severity_one on the word damn. -/
theorem C3_profanity_severity_one_witness :
    cpDamn (cDamn.comment_text.getD "") = true
    ∧ ((preFilterOne cpDamn cDamn).is_offensive = some true
        ∧ (preFilterOne cpDamn cDamn).offense_type = some "profanity"
        ∧ (preFilterOne cpDamn cDamn).explanation
            = some "Flagged by better_profanity"
        ∧ analyze_comment_with_ai ApiOutcome.noChoices (preFilterOne cpDamn cDamn)
            = ({ preFilterOne cpDamn cDamn with severity := some 1 }, false)) :=
  ⟨by decide, C3_profanity_severity_one cpDamn cDamn ApiOutcome.noChoices
    (by decide)⟩

/-- C4: for a path whose file is missing, or a .json path whose content
fails to parse or parses to an unexpected shape (malformed), or a path of
unsupported extension, load_comments returns the empty list and prints an
error message; no exception reaches the caller, every raise of the body
being a handled Except constructor. -/
theorem C4_load_error_empty (fs : String → FileModel) (path : String)
    (h : (fs path).present = false
      ∨ (pyEndsWith path ".csv" = false ∧ pyEndsWith path ".json" = true
          ∧ ((fs path).jsonParse = none
              ∨ (fs path).jsonParse = some ParsedJson.other))
      ∨ (pyEndsWith path ".csv" = false ∧ pyEndsWith path ".json" = false)) :
    (load_comments fs path).1 = [] ∧ ¬ (load_comments fs path).2 = [] := by
  unfold load_comments loadBody
  rcases h with hmiss | ⟨hcsv, hjson, hparse⟩ | ⟨hcsv, hjson⟩
  · by_cases hc : pyEndsWith path ".csv"
    · simp [hc, hmiss]
    · by_cases hj : pyEndsWith path ".json"
      · simp [hc, hj, hmiss]
      · simp [hc, hj]
  · rcases hparse with hp | hp <;>
      by_cases hpres : (fs path).present <;>
      simp [hcsv, hjson, hp, hpres]
  · simp [hcsv, hjson]

/-- Witness for C4_load_error_empty: a missing CSV path. -/
theorem C4_load_error_empty_witness :
    (fsAllMissing "nope.csv").present = false
    ∧ ((load_comments fsAllMissing "nope.csv").1 = []
        ∧ ¬ (load_comments fsAllMissing "nope.csv").2 = []) :=
  ⟨rfl, C4_load_error_empty fsAllMissing "nope.csv" (Or.inl rfl)⟩

/-- C5: when the API response content fails to parse as JSON, the comment
(not already resolved as profanity) is marked offensive with offense_type
error, the fixed explanation, and severity 3, and a request was issued. -/
theorem C5_decode_error_fields (c : Comment) (h : profGuard c = false) :
    (analyze_comment_with_ai (ApiOutcome.success none) c).1.is_offensive
      = some true
    ∧ (analyze_comment_with_ai (ApiOutcome.success none) c).1.offense_type
        = some "error"
    ∧ (analyze_comment_with_ai (ApiOutcome.success none) c).1.explanation
        = some "Error decoding AI analysis response."
    ∧ (analyze_comment_with_ai (ApiOutcome.success none) c).1.severity
        = some 3
    ∧ (analyze_comment_with_ai (ApiOutcome.success none) c).2 = true := by
  refine ⟨?_, ?_, ?_, ?_, ?_⟩ <;> simp [analyze_comment_with_ai, h]

/-- Witness for C5_decode_error_fields at the empty comment record. -/
theorem C5_decode_error_fields_witness :
    profGuard emptyComment = false
    ∧ ((analyze_comment_with_ai (ApiOutcome.success none)
          emptyComment).1.is_offensive = some true
        ∧ (analyze_comment_with_ai (ApiOutcome.success none)
            emptyComment).1.offense_type = some "error"
        ∧ (analyze_comment_with_ai (ApiOutcome.success none)
            emptyComment).1.explanation
              = some "Error decoding AI analysis response."
        ∧ (analyze_comment_with_ai (ApiOutcome.success none)
            emptyComment).1.severity = some 3
        ∧ (analyze_comment_with_ai (ApiOutcome.success none)
            emptyComment).2 = true) :=
  ⟨rfl, C5_decode_error_fields emptyComment rfl⟩

/-- C6: when the classification call raises an exception with text msg, the
comment (not already resolved as profanity) is marked offensive with
offense_type api_error and severity 4, the explanation contains the error
text, and no exception propagates: the outcome is an ordinary return value
of the total function. -/
theorem C6_api_error_fields (c : Comment) (msg : String)
    (h : profGuard c = false) :
    (analyze_comment_with_ai (ApiOutcome.exn msg) c).1.is_offensive = some true
    ∧ (analyze_comment_with_ai (ApiOutcome.exn msg) c).1.offense_type
        = some "api_error"
    ∧ (analyze_comment_with_ai (ApiOutcome.exn msg) c).1.severity = some 4
    ∧ (∃ pre post, (analyze_comment_with_ai (ApiOutcome.exn msg) c).1.explanation
        = some (pre ++ msg ++ post)) := by
  refine ⟨?_, ?_, ?_, "Error during AI analysis: ", "", ?_⟩ <;>
    simp [analyze_comment_with_ai, h]

/-- Witness for C6_api_error_fields at the empty comment record and the
error text boom. -/
theorem C6_api_error_fields_witness :
    profGuard emptyComment = false
    ∧ ((analyze_comment_with_ai (ApiOutcome.exn "boom")
          emptyComment).1.is_offensive = some true
        ∧ (analyze_comment_with_ai (ApiOutcome.exn "boom")
            emptyComment).1.offense_type = some "api_error"
        ∧ (analyze_comment_with_ai (ApiOutcome.exn "boom")
            emptyComment).1.severity = some 4
        ∧ (∃ pre post, (analyze_comment_with_ai (ApiOutcome.exn "boom")
            emptyComment).1.explanation = some (pre ++ "boom" ++ post))) :=
  ⟨rfl, C6_api_error_fields emptyComment "boom" rfl⟩

/-- C7: the offense_type_breakdown Counter is built from breakdownSource,
and every comment contributing to it has is_offensive true and a non-null
offense_type, while a comment with null offense_type never contributes. -/
theorem C7_breakdown_only_offensive :
    (∀ (l : List Comment) (t : String),
        offense_type_breakdown l t
          = ((breakdownSource l).map (fun c => c.offense_type)).count (some t))
    ∧ (∀ (l : List Comment) (c : Comment), c ∈ breakdownSource l →
        c.is_offensive = some true ∧ ¬ c.offense_type = none)
    ∧ (∀ (l : List Comment) (c : Comment), c.offense_type = none →
        ¬ c ∈ breakdownSource l) := by
  refine ⟨fun l t => rfl, ?_, ?_⟩
  · intro l c hm
    have h1 := (List.mem_filter.mp hm).2
    have h2 := (List.mem_filter.mp (List.mem_filter.mp hm).1).2
    constructor
    · cases hio : c.is_offensive with
      | none => rw [offTruthy, hio] at h2; exact absurd h2 (by simp)
      | some b =>
        cases b
        · rw [offTruthy, hio] at h2; exact absurd h2 (by simp)
        · rfl
    · intro he
      rw [typeTruthy, he] at h1
      exact absurd h1 (by simp)
  · intro l c he hm
    have h1 := (List.mem_filter.mp hm).2
    rw [typeTruthy, he] at h1
    exact absurd h1 (by simp)

/-- Witness for C7_breakdown_only_offensive: the toxic comment is in the
breakdown source of a two-comment list and indeed offensive with non-null
type; the comment with null offense_type is not in it. -/
theorem C7_breakdown_only_offensive_witness :
    (cToxic.is_offensive = some true ∧ ¬ cToxic.offense_type = none)
    ∧ ¬ cNullType ∈ breakdownSource [cToxic, cNullType] :=
  ⟨C7_breakdown_only_offensive.2.1 [cToxic, cNullType] cToxic (by decide),
   C7_breakdown_only_offensive.2.2 [cToxic, cNullType] cNullType rfl⟩

/-- Round-trip of the reader and the exported row list at the level of raw
cell rows. -/
theorem readStdCsv_roundtrip (body : List (List String)) :
    (∀ r ∈ body, r.length = 3) →
    ((readStdCsv body).map exportRow).map (fun r => r.take 3) = body := by
  induction body with
  | nil => intro _; rfl
  | cons r rest ih =>
    intro h
    simp only [readStdCsv, List.map_cons, List.cons.injEq] at ih ⊢
    exact ⟨exportRow_take3 r (h r (List.mem_cons_self r rest)),
      ih (fun x hx => h x (List.mem_cons_of_mem r hx))⟩

/-- C8: for every valid CSV input file (standard three-column header, each
record with its three cells), loading with load_comments and exporting with
the CSV branch of export_report yields a file whose data rows carry the
original comment_id, username and comment_text cells unchanged in the first
three columns. -/
theorem C8_csv_roundtrip (body : List (List String))
    (h : ∀ r ∈ body, r.length = 3) :
    (export_report_csv
        (load_comments (fsOfCsv body) "input.csv").1).tail.map
      (fun r => r.take 3) = body := by
  have hend : pyEndsWith "input.csv" ".csv" = true := by decide
  have hload : (load_comments (fsOfCsv body) "input.csv").1 = readStdCsv body := by
    simp [load_comments, loadBody, fsOfCsv, hend]
  rw [hload]
  show ((readStdCsv body).map exportRow).map (fun r => r.take 3) = body
  exact readStdCsv_roundtrip body h

/-- Witness for C8_csv_roundtrip on a one-row file. -/
theorem C8_csv_roundtrip_witness :
    (∀ r ∈ [["1", "alice", "hi"]], r.length = 3)
    ∧ (export_report_csv
        (load_comments (fsOfCsv [["1", "alice", "hi"]]) "input.csv").1).tail.map
      (fun r => r.take 3) = [["1", "alice", "hi"]] :=
  ⟨by decide, C8_csv_roundtrip [["1", "alice", "hi"]] (by decide)⟩

/-- C9 counterexample: a raw comment whose username key is present but
null passes every key-presence guard of the assembly loop, so the record
written for it carries a null username (an empty CSV cell) — the claim
that every written record has all three fields present fails at this
input. -/
theorem C9_counterexample :
    (((assembleFinal (fun _ => "generated") rawNullUser).get
        ⟨0, by decide⟩).username).isSome = false := by
  decide

/-- A two-layer Option whose getD against a non-null default is null must
be a present null. -/
theorem getD_some_eq_none {α : Type} (o : Option (Option α)) (d : α)
    (h : o.getD (some d) = none) : o = some none := by
  cases o with
  | none => exact absurd h (by simp)
  | some v =>
    rw [Option.getD_some] at h
    rw [h]

/-- C9 amended: the final_comments assembly emits one record per raw
comment with all three keys written, and the comment_id at position i is
i + 1 — strictly increasing and contiguous starting at 1; the username and
comment_text keys are filled with the generated username or the fixed
placeholder exactly when the key is absent from the raw comment, and
otherwise carry the raw value through, so their values are non-null except
for a carried-through present null. -/
theorem C9_generated_ids (fake : Nat → String) (raws : List RawGen) (i : Nat)
    (h : i < (assembleFinal fake raws).length) (hr : i < raws.length) :
    (assembleFinal fake raws).length = raws.length
    ∧ ((assembleFinal fake raws).get ⟨i, h⟩).comment_id = some (i + 1)
    ∧ ((assembleFinal fake raws).get ⟨i, h⟩).username
        = (raws.get ⟨i, hr⟩).username.getD (some (fake i))
    ∧ ((assembleFinal fake raws).get ⟨i, h⟩).comment_text
        = (raws.get ⟨i, hr⟩).comment_text.getD
            (some "This comment had an issue.")
    ∧ (((assembleFinal fake raws).get ⟨i, h⟩).username = none →
        (raws.get ⟨i, hr⟩).username = some none)
    ∧ (((assembleFinal fake raws).get ⟨i, h⟩).comment_text = none →
        (raws.get ⟨i, hr⟩).comment_text = some none) := by
  have hlen : (assembleFinal fake raws).length = raws.length := by
    simp [assembleFinal]
  have hu : ((assembleFinal fake raws).get ⟨i, h⟩).username
      = (raws.get ⟨i, hr⟩).username.getD (some (fake i)) := by
    simp [assembleFinal, List.get_eq_getElem, List.getElem_map,
      List.getElem_enum]
  have ht : ((assembleFinal fake raws).get ⟨i, h⟩).comment_text
      = (raws.get ⟨i, hr⟩).comment_text.getD
          (some "This comment had an issue.") := by
    simp [assembleFinal, List.get_eq_getElem, List.getElem_map,
      List.getElem_enum]
  refine ⟨hlen, ?_, hu, ht, ?_, ?_⟩
  · simp [assembleFinal, List.get_eq_getElem, List.getElem_map,
      List.getElem_enum]
  · intro hn
    rw [hu] at hn
    exact getD_some_eq_none _ _ hn
  · intro hn
    rw [ht] at hn
    exact getD_some_eq_none _ _ hn

/-- Witness for C9_generated_ids at index 1 of a two-element input. -/
theorem C9_generated_ids_witness :
    (1 < (assembleFinal (fun _ => "user") rawsEx).length ∧ 1 < rawsEx.length)
    ∧ ((assembleFinal (fun _ => "user") rawsEx).length = rawsEx.length
        ∧ ((assembleFinal (fun _ => "user") rawsEx).get
            ⟨1, by decide⟩).comment_id = some 2
        ∧ ((assembleFinal (fun _ => "user") rawsEx).get
            ⟨1, by decide⟩).username
              = (rawsEx.get ⟨1, by decide⟩).username.getD (some "user")
        ∧ ((assembleFinal (fun _ => "user") rawsEx).get
            ⟨1, by decide⟩).comment_text
              = (rawsEx.get ⟨1, by decide⟩).comment_text.getD
                  (some "This comment had an issue.")
        ∧ (((assembleFinal (fun _ => "user") rawsEx).get
            ⟨1, by decide⟩).username = none →
              (rawsEx.get ⟨1, by decide⟩).username = some none)
        ∧ (((assembleFinal (fun _ => "user") rawsEx).get
            ⟨1, by decide⟩).comment_text = none →
              (rawsEx.get ⟨1, by decide⟩).comment_text = some none)) :=
  ⟨⟨by decide, by decide⟩,
   C9_generated_ids (fun _ => "user") rawsEx 1 (by decide) (by decide)⟩

/-- C10: on every execution path of analyze_comment_with_ai, whatever the
API outcome, the comment_id, username and comment_text fields of the result
equal those of the input: only the four analysis fields of the record are
ever assigned. -/
theorem C10_analyze_frame (out : ApiOutcome) (c : Comment) :
    (analyze_comment_with_ai out c).1.comment_id = c.comment_id
    ∧ (analyze_comment_with_ai out c).1.username = c.username
    ∧ (analyze_comment_with_ai out c).1.comment_text = c.comment_text := by
  by_cases hg : profGuard c = true
  · refine ⟨?_, ?_, ?_⟩ <;> simp [analyze_comment_with_ai, hg]
  · rcases out with p | _ | msg
    · rcases p with _ | a <;>
        (refine ⟨?_, ?_, ?_⟩ <;> simp [analyze_comment_with_ai, hg])
    · refine ⟨?_, ?_, ?_⟩ <;> simp [analyze_comment_with_ai, hg]
    · refine ⟨?_, ?_, ?_⟩ <;> simp [analyze_comment_with_ai, hg]
